import Mathlib

/-!
Verification development for the multi-platform Metro resolver pipeline
(withMetroMultiPlatform): shallow embedding of the resolver stages and the
supporting data model, with theorems checking the specification claims.
-/

set_option maxHeartbeats 1000000

/-- A Metro resolution result, the tagged variant returned by resolvers:
a real source file, a set of asset files, or an explicit empty stub. -/
inductive Resolution where
  | sourceFile (filePath : String)
  | assetFiles (filePaths : List String)
  | empty
deriving DecidableEq, Repr

/-- Modelled from the spec: failure kinds of the underlying resolver
(metroErrors is not part of these sources). NameNotFound and PathNotFound
are the kinds eligible for optional suppression; everything else is an
unclassified resolver error. -/
inductive ResolverErrorKind where
  | failedToResolveName
  | failedToResolvePath
  | other
deriving DecidableEq, Repr

/-- Modelled from the spec: a thrown resolution failure carrying its kind. -/
structure ResolverError where
  kind : ResolverErrorKind
deriving DecidableEq, Repr

/-- Modelled from the spec: classifier for name-not-found failures. -/
def isFailedToResolveNameError (e : ResolverError) : Bool :=
  e.kind == ResolverErrorKind.failedToResolveName

/-- Modelled from the spec: classifier for path-not-found failures. -/
def isFailedToResolvePathError (e : ResolverError) : Bool :=
  e.kind == ResolverErrorKind.failedToResolvePath

/-- The custom resolver options carried by a resolution context:
an environment tag and an exporting flag. -/
structure CustomResolverOptions where
  environment : Option String
  exporting : Bool
deriving DecidableEq, Repr

/-- The slice of the Metro resolution context the embedded stages read. -/
structure ResolutionContext where
  customResolverOptions : CustomResolverOptions
  originModulePath : String
  dev : Bool
deriving DecidableEq, Repr

/-- Modelled from the spec: isServerEnvironment (metroOptions is not part of
these sources). Server-like environments are the Node.js-style runtimes,
matching the inline server check of the built-in externals stage. -/
def isServerEnvironment (environment : Option String) : Bool :=
  environment == some "node" || environment == some "react-server"

/-- Modelled from the spec: the virtual module registry, a keyed store from
synthetic module identifier to generated source (metroVirtualModules is not
part of these sources). -/
abbrev Registry := List (String × String)

/-- Modelled from the spec: setVirtualModule registers or overwrites. -/
def setVirtualModule (reg : Registry) (id contents : String) : Registry :=
  (id, contents) :: reg.filter (fun p => p.1 != id)

/-- Modelled from the spec: hasVirtualModule checks existence. -/
def hasVirtualModule (reg : Registry) (id : String) : Bool :=
  reg.any (fun p => p.1 == id)

/-- Modelled from the spec: look up the registered source of a virtual id. -/
def getVirtualModule (reg : Registry) (id : String) : Option String :=
  (reg.find? (fun p => p.1 == id)).map (fun p => p.2)

/-- Executable prefix test on strings (character-list based, so that the
kernel can evaluate it on concrete inputs). -/
def strStartsWith (s pat : String) : Bool :=
  pat.data.isPrefixOf s.data

/-- Executable suffix test on strings. -/
def strEndsWith (s pat : String) : Bool :=
  pat.data.isSuffixOf s.data

/-- Executable drop of the first n characters of a string. -/
def strDrop (s : String) (n : Nat) : String :=
  ⟨s.data.drop n⟩

/-- Executable character count of a string. -/
def strLength (s : String) : Nat :=
  s.data.length

/-- Executable test that every character of a string satisfies a predicate. -/
def strAll (s : String) (p : Char → Bool) : Bool :=
  s.data.all p

/-- Executable longest-prefix-satisfying-a-predicate of a string. -/
def strTakeWhile (s : String) (p : Char → Bool) : String :=
  ⟨s.data.takeWhile p⟩

/-- Fuel-driven worker for splitting a character list at each left-to-right
non-overlapping occurrence of a separator. -/
def strSplitOnFuel (sep : List Char) : Nat → List Char → List Char → List (List Char)
  | _, [], acc => [acc.reverse]
  | 0, l, acc => [acc.reverse ++ l]
  | fuel + 1, c :: cs, acc =>
    if sep.isPrefixOf (c :: cs) then
      acc.reverse :: strSplitOnFuel sep fuel ((c :: cs).drop sep.length) []
    else
      strSplitOnFuel sep fuel cs (c :: acc)

/-- Executable split of a string at every occurrence of a nonempty
separator; with an empty separator the string is returned whole. -/
def strSplitOn (s sep : String) : List String :=
  if sep.data == [] then [s]
  else (strSplitOnFuel sep.data s.data.length s.data []).map (fun l => ⟨l⟩)

/-- Executable join of string parts with a separator between them. -/
def strIntercalate (sep : String) (parts : List String) : String :=
  ⟨List.intercalate sep.data (parts.map (fun p => p.data))⟩

/-- normalizeSlashes: replace every backslash with a forward slash. -/
def normalizeSlashes (p : String) : String :=
  ⟨p.data.map (fun c => if c == '\x5c' then '/' else c)⟩

/-- Substring test, used to embed JavaScript includes and unanchored
regular-expression tests. -/
def containsSubstr (s pat : String) : Bool :=
  (strSplitOn s pat).length != 1

/-- getNodejsExtensions: move the mjs extensions to sort directly after the
last js or jsx extension, keeping every other extension in order. -/
def getNodejsExtensions (srcExts : List String) : List String :=
  let mjsExts := srcExts.filter (fun ext => strEndsWith ext "mjs")
  let nodejsSourceExtensions := srcExts.filter (fun ext => !strEndsWith ext "mjs")
  let jsIndex : Int := (nodejsSourceExtensions.enum.foldl
    (fun index p => if strEndsWith p.2 "js" || strEndsWith p.2 "jsx" then (p.1 : Int) else index)
    (-1))
  nodejsSourceExtensions.take (jsIndex + 1).toNat
    ++ mjsExts
    ++ nodejsSourceExtensions.drop (jsIndex + 1).toNat

/-- getStrictResolver applied to a module name: the strict resolver either
returns a Resolution or propagates a classified failure. -/
abbrev StrictResolver := String → Except ResolverError Resolution

/-- getOptionalResolver: run the strict resolver; a failure classified as
failed-to-resolve-name or failed-to-resolve-path becomes null, every other
failure propagates. -/
def optionalResolve (doResolve : StrictResolver) (moduleName : String) :
    Except ResolverError (Option Resolution) :=
  match doResolve moduleName with
  | Except.ok r => Except.ok (some r)
  | Except.error e =>
    if isFailedToResolveNameError e || isFailedToResolvePathError e then
      Except.ok none
    else
      Except.error e

/-- Virtual id namespace template used by built-in Node externalization. -/
def nodeExternalVirtualId (moduleId : String) : String :=
  "\x00node:" ++ moduleId

/-- Virtual id namespace template used by the declared custom externals. -/
def customExternalVirtualId (moduleName : String) : String :=
  "\x00node:" ++ moduleName

/-- Virtual id namespace template used for static web shims. -/
def shimVirtualId (normalName : String) : String :=
  "\x00shim:" ++ normalName

/-- Node.js externals resolver stage: in server-like environments, register a
deferred-require virtual module; otherwise try optional resolution first and
fall back to an empty stub on web, declining elsewhere. -/
def nodeExternalsResolver (isNodeExternal : String → Option String)
    (doResolve : StrictResolver)
    (context : ResolutionContext) (moduleName : String) (platform : Option String)
    (reg : Registry) : Except ResolverError (Option Resolution × Registry) :=
  let isServer := context.customResolverOptions.environment == some "node"
    || context.customResolverOptions.environment == some "react-server"
  match isNodeExternal moduleName with
  | none => Except.ok (none, reg)
  | some moduleId =>
    if !isServer then
      match optionalResolve doResolve moduleName with
      | Except.error e => Except.error e
      | Except.ok result =>
        if result.isNone && platform != some "web" then
          Except.ok (none, reg)
        else
          Except.ok (some (result.getD Resolution.empty), reg)
    else
      let contents := "module.exports=$$require_external(\x27node:" ++ moduleId ++ "\x27);"
      let virtualModuleId := nodeExternalVirtualId moduleId
      Except.ok (some (Resolution.sourceFile virtualModuleId),
        setVirtualModule reg virtualModuleId contents)

/-- One character of a regular-expression dot: anything except a newline. -/
def regexDotChar (c : Char) : Bool :=
  c != '\n'

/-- Anchored match of base(\x2f.*)? : the base name alone, or the base name
followed by a slash and any run of non-newline characters. -/
def matchOptionalSlashDotStar (m base : String) : Bool :=
  m == base
    || (strStartsWith m (base ++ "/") && strAll (strDrop m (strLength base + 1)) regexDotChar)

/-- Anchored match of base\x2f.+ : the base name followed by a slash and a
nonempty run of non-newline characters. -/
def matchSlashDotPlus (m base : String) : Bool :=
  strStartsWith m (base ++ "/")
    && strLength (strDrop m (strLength base + 1)) != 0
    && strAll (strDrop m (strLength base + 1)) regexDotChar

/-- The anchored alternation of package names recognized by the declared
custom externals rule. -/
def customExternalsPattern (m : String) : Bool :=
  matchOptionalSlashDotStar m "source-map-support"
  || m == "react"
  || m == "react-native-helmet-async"
  || matchSlashDotPlus m "@radix-ui"
  || matchSlashDotPlus m "@babel/runtime"
  || m == "react-dom" || matchSlashDotPlus m "react-dom"
  || m == "debug"
  || m == "acorn-loose"
  || m == "acorn"
  || matchSlashDotPlus m "css-in-js-utils/lib"
  || m == "hyphenate-style-name"
  || m == "color"
  || m == "color-string"
  || m == "color-convert"
  || m == "color-name"
  || m == "fontfaceobserver"
  || m == "fast-deep-equal"
  || m == "query-string"
  || m == "escape-string-regexp"
  || m == "invariant"
  || m == "postcss-value-parser"
  || m == "memoize-one"
  || m == "nullthrows"
  || m == "strict-uri-encode"
  || m == "decode-uri-component"
  || m == "split-on-first"
  || m == "filter-obj"
  || m == "warn-once"
  || m == "simple-swizzle"
  || m == "is-arrayish"
  || matchSlashDotPlus m "inline-style-prefixer"

/-- The effect of an external rule: an empty stub or a deferred require. -/
inductive ExternalReplace where
  | empty
  | node
deriving DecidableEq, Repr

/-- An external rule: a predicate over the request plus its effect. -/
structure ExternalRule where
  ruleMatch : ResolutionContext → String → Option String → Bool
  replace : ExternalReplace

/-- The predicate of the single declared externals entry: disabled when
exporting, restricted to server-like environments, then the pattern test. -/
def externalsMatch (context : ResolutionContext) (moduleName : String) : Bool :=
  if context.customResolverOptions.exporting
      || !isServerEnvironment context.customResolverOptions.environment then
    false
  else
    customExternalsPattern moduleName

/-- The declared externals list: one rule with the deferred-require effect. -/
def externals : List ExternalRule :=
  [⟨fun context moduleName _ => externalsMatch context moduleName, ExternalReplace.node⟩]

/-- Evaluate external rules in order; the first match decides the effect. -/
def runExternalRules (rules : List ExternalRule)
    (context : ResolutionContext) (moduleName : String) (platform : Option String)
    (reg : Registry) : Option Resolution × Registry :=
  match rules with
  | [] => (none, reg)
  | r :: rest =>
    if r.ruleMatch context moduleName platform then
      match r.replace with
      | ExternalReplace.empty => (some Resolution.empty, reg)
      | ExternalReplace.node =>
        let contents := "module.exports=$$require_external(\x27" ++ moduleName ++ "\x27)"
        let virtualModuleId := customExternalVirtualId moduleName
        (some (Resolution.sourceFile virtualModuleId),
          setVirtualModule reg virtualModuleId contents)
    else
      runExternalRules rest context moduleName platform reg

/-- Custom externals resolver stage: package metadata requests are never
externalized; otherwise the declared rules run in order. -/
def customExternalsResolver (context : ResolutionContext) (moduleName : String)
    (platform : Option String) (reg : Registry) : Option Resolution × Registry :=
  if strEndsWith moduleName "/package.json" then
    (none, reg)
  else
    runExternalRules externals context moduleName platform reg

/-- The static per-platform exact alias table (web entries). -/
def webAliases : List (String × String) :=
  [("react-native", "react-native-web"),
   ("react-native/index", "react-native-web"),
   ("react-native/Libraries/Image/resolveAssetSource",
    "expo-asset/build/resolveAssetSource")]

/-- Exact alias lookup: only the web platform has an alias table. -/
def aliasLookup (platform : Option String) (moduleName : String) : Option String :=
  if platform == some "web" then
    (webAliases.find? (fun p => p.1 == moduleName)).map (fun p => p.2)
  else
    none

/-- The vector-icons universal alias: unanchored-at-end match of
react-native-vector-icons(\x2f.*)? with the backreference substituted into
the template. -/
def applyVectorIconsAlias (moduleName : String) : Option String :=
  if strStartsWith moduleName "react-native-vector-icons" then
    let rest := strDrop moduleName (strLength "react-native-vector-icons")
    let group := if strStartsWith rest "/" then strTakeWhile rest regexDotChar else ""
    some ("@expo/vector-icons" ++ group)
  else
    none

/-- The universal alias list, computed from whether the companion package is
installed in the project. -/
def getUniversalAliases (vectorIconsInstalled : Bool) : List (String → Option String) :=
  if vectorIconsInstalled then [applyVectorIconsAlias] else []

/-- Apply universal aliases in order; on the first match, resolve the aliased
module with the strict resolver. -/
def runUniversalAliases (aliases : List (String → Option String))
    (doResolve : StrictResolver) (moduleName : String) :
    Except ResolverError (Option Resolution) :=
  match aliases with
  | [] => Except.ok none
  | a :: rest =>
    match a moduleName with
    | some aliasedModule => (doResolve aliasedModule).map some
    | none => runUniversalAliases rest doResolve moduleName

/-- Basic moduleId alias stage: exact per-platform aliases first, then the
universal regex aliases; a fired alias resolves strictly. -/
def aliasStage (vectorIconsInstalled : Bool) (doResolve : StrictResolver)
    (moduleName : String) (platform : Option String) :
    Except ResolverError (Option Resolution) :=
  match aliasLookup platform moduleName with
  | some redirectedModuleName => (doResolve redirectedModuleName).map some
  | none =>
    runUniversalAliases (getUniversalAliases vectorIconsInstalled) doResolve moduleName

/-- JavaScript String.replace with a string pattern: replace only the first
occurrence of the pattern. -/
def replaceFirst (s pat repl : String) : String :=
  match strSplitOn s pat with
  | [] => s
  | [_] => s
  | x :: rest => x ++ repl ++ strIntercalate pat rest

/-- The JavaScript default parameter enabled = false: an omitted argument
behaves as false. -/
def strictVersionEnabledOf (isReactNativeStrictVersionEnabled : Option Bool) : Bool :=
  isReactNativeStrictVersionEnabled.getD false

/-- One call of the strict-version resolver closure. Returns the resolver
outcome, the updated warned flag, and whether a warning was emitted. -/
def strictVersionStep (enabled : Bool) (reactNativePath : String)
    (doResolve : StrictResolver) (redirectModulePath : String → Option String)
    (moduleName : String) (warned : Bool) :
    Except ResolverError (Option Resolution) × Bool × Bool :=
  if !enabled || !(moduleName == "react-native" || strStartsWith moduleName "react-native/") then
    (Except.ok none, warned, false)
  else
    match doResolve moduleName with
    | Except.error e => (Except.error e, warned, false)
    | Except.ok (Resolution.sourceFile fp) =>
      if strStartsWith fp reactNativePath then
        (Except.ok (some (Resolution.sourceFile fp)), warned, false)
      else
        match redirectModulePath (replaceFirst moduleName "react-native" reactNativePath) with
        | none => (Except.ok none, warned, false)
        | some redirectPath =>
          match doResolve redirectPath with
          | Except.error e => (Except.error e, warned, false)
          | Except.ok redirectResolved =>
            (Except.ok (some redirectResolved), true, !warned)
    | Except.ok resolved => (Except.ok (some resolved), warned, false)

/-- Whether one request actually performs a strict-version redirect; this is
independent of the warned flag. -/
def strictVersionRedirects (enabled : Bool) (reactNativePath : String)
    (doResolve : StrictResolver) (redirectModulePath : String → Option String)
    (moduleName : String) : Bool :=
  (strictVersionStep enabled reactNativePath doResolve redirectModulePath moduleName false).2.2

/-- Run a sequence of requests through one strict-version resolver instance,
threading the warned flag and counting emitted warnings. -/
def strictVersionRun (enabled : Bool) (reactNativePath : String)
    (doResolve : StrictResolver) (redirectModulePath : String → Option String)
    (reqs : List String) (warned : Bool) : Bool × Nat :=
  match reqs with
  | [] => (warned, 0)
  | m :: rest =>
    let s := strictVersionStep enabled reactNativePath doResolve redirectModulePath m warned
    let r := strictVersionRun enabled reactNativePath doResolve redirectModulePath rest s.2.1
    (r.1, (if s.2.2 then 1 else 0) + r.2)

/-- Unanchored match of node_modules[\x5c\x2f]react-native-web[\x5c\x2f]
against the origin module path. -/
def matchesRNWebOrigin (p : String) : Bool :=
  ["/", "\x5c"].any (fun s1 => ["/", "\x5c"].any (fun s2 =>
    containsSubstr p ("node_modules" ++ s1 ++ "react-native-web" ++ s2)))

/-- The greedy replace of .*node_modules\x2f by the empty string: keep only
the part after the last occurrence of node_modules/. -/
def dropThroughNodeModules (s : String) : String :=
  (strSplitOn s "node_modules/").getLastD s

/-- Complex post-resolution rewrite stage: the web AssetRegistry
short-circuit, then a strict resolution whose sourceFile result may be
redirected to a registered shim (web) or a canary file (native). -/
def postResolutionRewriter
    (shouldCreateVirtualShim shouldCreateVirtualCanary : String → Option String)
    (readFile : String → String)
    (isReactCanaryEnabled : Bool)
    (assetRegistryPath : String)
    (doResolve : StrictResolver)
    (context : ResolutionContext) (moduleName : String) (platform : Option String)
    (reg : Registry) : Except ResolverError (Resolution × Registry) :=
  if platform == some "web" && matchesRNWebOrigin context.originModulePath
      && containsSubstr moduleName "/modules/AssetRegistry" then
    Except.ok (Resolution.sourceFile assetRegistryPath, reg)
  else
    match doResolve moduleName with
    | Except.error e => Except.error e
    | Except.ok (Resolution.sourceFile fp) =>
      if platform == some "web" then
        if containsSubstr fp "node_modules" then
          let normalName := dropThroughNodeModules (normalizeSlashes fp)
          match shouldCreateVirtualShim normalName with
          | some shimFile =>
            let virtualId := shimVirtualId normalName
            let reg2 :=
              if hasVirtualModule reg virtualId then reg
              else setVirtualModule reg virtualId (readFile shimFile)
            Except.ok (Resolution.sourceFile virtualId, reg2)
          | none => Except.ok (Resolution.sourceFile fp, reg)
        else
          Except.ok (Resolution.sourceFile fp, reg)
      else
        if isReactCanaryEnabled && containsSubstr fp "node_modules" then
          let normalName := dropThroughNodeModules (normalizeSlashes fp)
          match shouldCreateVirtualCanary normalName with
          | some canaryFile => Except.ok (Resolution.sourceFile canaryFile, reg)
          | none => Except.ok (Resolution.sourceFile fp, reg)
        else
          Except.ok (Resolution.sourceFile fp, reg)
    | Except.ok result => Except.ok (result, reg)

/-- The id of the environment-variables polyfill virtual module. -/
def virtualEnvVarId : String :=
  "\x00polyfill:environment-variables"

/-- The id of the external-require guard polyfill virtual module. -/
def virtualExternalRequireId : String :=
  "\x00polyfill:external-require"

/-- The generated source of the external-require guard polyfill: on web it
exposes the host require directly, elsewhere a guarded error thrower. -/
def externalRequirePolyfillSource (platform : Option String) : String :=
  if platform == some "web" then
    "global.$$require_external = typeof window === \"undefined\" ? require : () => null;"
  else
    "try \x7b global.$$require_external = typeof expo === \"undefined\" ? require : (moduleId) => \x7b throw new Error(\x60Node.js standard library module $\x7bmoduleId\x7d is not available in this JavaScript environment\x60);\x7d \x7d catch \x7b global.$$require_external = (moduleId) => \x7b throw new Error(\x60Node.js standard library module $\x7bmoduleId\x7d is not available in this JavaScript environment\x60);\x7d \x7d"

/-- getPolyfills of withWebPolyfills: register the two virtual polyfills,
then return the web list or the original list with the two ids appended. -/
def getPolyfills (originalGetPolyfills : Option String → List String)
    (errorGuardPolyfillPath : String)
    (platform : Option String) (reg : Registry) : List String × Registry :=
  let reg1 := setVirtualModule reg virtualEnvVarId "//"
  let reg2 := setVirtualModule reg1 virtualExternalRequireId
    (externalRequirePolyfillSource platform)
  if platform == some "web" then
    ([virtualExternalRequireId, virtualEnvVarId, errorGuardPolyfillPath], reg2)
  else
    (originalGetPolyfills platform ++ [virtualExternalRequireId, virtualEnvVarId], reg2)

/-- The named options accepted by withMetroMultiPlatformAsync that are
relevant to the extended resolver. -/
structure MultiPlatformOptions where
  isTsconfigPathsEnabled : Bool
  isFastResolverEnabled : Option Bool
  isExporting : Option Bool
  isReactCanaryEnabled : Bool
  isReactNativeStrictVersionEnabled : Bool
deriving DecidableEq, Repr

/-- The options object consumed by withExtendedResolver; optional fields are
absent when the caller omits them. -/
structure ExtendedResolverOptions where
  isTsconfigPathsEnabled : Option Bool
  isFastResolverEnabled : Option Bool
  isExporting : Option Bool
  isReactCanaryEnabled : Option Bool
  isReactNativeStrictVersionEnabled : Option Bool
deriving DecidableEq, Repr

/-- The options object withMetroMultiPlatformAsync passes to
withExtendedResolver: it forwards tsconfig, exporting, tsconfig-paths, fast
resolver and react-canary, and omits isReactNativeStrictVersionEnabled. -/
def withMetroMultiPlatformResolverOptions (o : MultiPlatformOptions) :
    ExtendedResolverOptions :=
  { isTsconfigPathsEnabled := some o.isTsconfigPathsEnabled
    isExporting := o.isExporting
    isFastResolverEnabled := o.isFastResolverEnabled
    isReactCanaryEnabled := some o.isReactCanaryEnabled
    isReactNativeStrictVersionEnabled := none }

/-- Helper: filtering with q after splicing a q-filtered-out block into the
middle of the q-filtered list recovers exactly the q-filtered list. -/
theorem filter_splice_eq (l m : List String) (q : String → Bool)
    (hm : ∀ a ∈ m, q a = false) (k : Nat) :
    (((l.filter q).take k ++ m ++ (l.filter q).drop k).filter q) = l.filter q := by
  have h1 : ((l.filter q).take k).filter q = (l.filter q).take k :=
    List.filter_eq_self.mpr (fun a ha => (List.mem_filter.mp (List.mem_of_mem_take ha)).2)
  have h2 : m.filter q = [] := by
    rw [List.filter_eq_nil_iff]
    intro a ha
    simp [hm a ha]
  have h3 : ((l.filter q).drop k).filter q = (l.filter q).drop k :=
    List.filter_eq_self.mpr (fun a ha => (List.mem_filter.mp (List.mem_of_mem_drop ha)).2)
  rw [List.filter_append, List.filter_append, h1, h2, h3, List.append_nil,
    List.take_append_drop]

/-- C7: on the input list of source extensions [native.js, js, mjs, json],
getNodejsExtensions places mjs immediately after js and before json, and on
every input list the relative order (indeed, the exact subsequence) of the
non-mjs extensions is preserved. -/
theorem getNodejsExtensions_spec :
    getNodejsExtensions ["native.js", "js", "mjs", "json"]
      = ["native.js", "js", "mjs", "json"]
    ∧ ∀ srcExts : List String,
        (getNodejsExtensions srcExts).filter (fun ext => !strEndsWith ext "mjs")
          = srcExts.filter (fun ext => !strEndsWith ext "mjs") := by
  refine ⟨by decide, ?_⟩
  intro srcExts
  unfold getNodejsExtensions
  exact filter_splice_eq srcExts _ _
    (fun a ha => by
      have := (List.mem_filter.mp ha).2
      simp [this]) _

/-- C4: the optional resolver returns null exactly when strict resolution
throws a failed-to-resolve-name or failed-to-resolve-path error; any other
error propagates unchanged; a successful strict resolution is returned
as-is. -/
theorem optionalResolve_spec (doResolve : StrictResolver) (moduleName : String) :
    (optionalResolve doResolve moduleName = Except.ok none
      ↔ ∃ e, doResolve moduleName = Except.error e
          ∧ (isFailedToResolveNameError e || isFailedToResolvePathError e) = true)
    ∧ (∀ e, doResolve moduleName = Except.error e →
        (isFailedToResolveNameError e || isFailedToResolvePathError e) = false →
        optionalResolve doResolve moduleName = Except.error e)
    ∧ (∀ r, doResolve moduleName = Except.ok r →
        optionalResolve doResolve moduleName = Except.ok (some r)) := by
  cases h : doResolve moduleName with
  | ok r =>
    refine ⟨?_, ?_, ?_⟩
    · simp [optionalResolve, h]
    · intro e he
      exact absurd he (by simp)
    · intro r2 hr2
      injection hr2 with hh
      subst hh
      simp [optionalResolve, h]
  | error e =>
    by_cases hc : (isFailedToResolveNameError e || isFailedToResolvePathError e) = true
    · refine ⟨?_, ?_, ?_⟩
      · simp only [optionalResolve, h, hc]
        simp only [if_true]
        exact iff_of_true trivial ⟨e, rfl, hc⟩
      · intro e2 he2 hc2
        injection he2 with hh
        subst hh
        rw [hc] at hc2
        exact absurd hc2 (by simp)
      · intro r2 hr2
        exact absurd hr2 (by simp)
    · have hc2 : (isFailedToResolveNameError e || isFailedToResolvePathError e) = false :=
        Bool.eq_false_iff.mpr hc
      refine ⟨?_, ?_, ?_⟩
      · constructor
        · intro hx
          simp [optionalResolve, h, hc2] at hx
        · rintro ⟨e2, he2, hcc⟩
          injection he2 with hh
          subst hh
          rw [hcc] at hc2
          exact absurd hc2 (by simp)
      · intro e2 he2 _
        injection he2 with hh
        subst hh
        simp [optionalResolve, h, hc2]
      · intro r2 hr2
        exact absurd hr2 (by simp)

/-- Closed check of optionalResolve_spec at concrete inputs: a strict
resolver failing with a name-not-found error is suppressed to null, and one
failing with an unclassified error propagates. -/
theorem optionalResolve_spec_witness :
    optionalResolve (fun _ => Except.error ⟨ResolverErrorKind.failedToResolveName⟩) "fs"
      = Except.ok none
    ∧ optionalResolve (fun _ => Except.error ⟨ResolverErrorKind.other⟩) "fs"
      = Except.error ⟨ResolverErrorKind.other⟩ := by
  constructor
  · exact (optionalResolve_spec (fun _ => Except.error ⟨ResolverErrorKind.failedToResolveName⟩)
      "fs").1.mpr ⟨⟨ResolverErrorKind.failedToResolveName⟩, rfl, by decide⟩
  · exact (optionalResolve_spec (fun _ => Except.error ⟨ResolverErrorKind.other⟩)
      "fs").2.1 ⟨ResolverErrorKind.other⟩ rfl (by decide)

/-- C2: withMetroMultiPlatformAsync omits isReactNativeStrictVersionEnabled
from the options it passes to withExtendedResolver, so the strict-version
resolver is constructed with enabled = false and returns null for every
request. -/
theorem multiPlatform_strictVersion_disabled (o : MultiPlatformOptions)
    (reactNativePath : String) (doResolve : StrictResolver)
    (redirectModulePath : String → Option String) (moduleName : String) (warned : Bool) :
    (withMetroMultiPlatformResolverOptions o).isReactNativeStrictVersionEnabled = none
    ∧ strictVersionEnabledOf
        (withMetroMultiPlatformResolverOptions o).isReactNativeStrictVersionEnabled = false
    ∧ strictVersionStep
        (strictVersionEnabledOf
          (withMetroMultiPlatformResolverOptions o).isReactNativeStrictVersionEnabled)
        reactNativePath doResolve redirectModulePath moduleName warned
      = (Except.ok none, warned, false) := by
  refine ⟨rfl, rfl, ?_⟩
  simp [strictVersionStep, strictVersionEnabledOf, withMetroMultiPlatformResolverOptions]

/-- Closed check of multiPlatform_strictVersion_disabled at a concrete
options record with isReactNativeStrictVersionEnabled set to true. -/
theorem multiPlatform_strictVersion_disabled_witness :
    strictVersionStep
      (strictVersionEnabledOf
        (withMetroMultiPlatformResolverOptions
          ⟨true, some true, some false, true, true⟩).isReactNativeStrictVersionEnabled)
      "/proj/node_modules/react-native"
      (fun _ => Except.ok (Resolution.sourceFile "/other/react-native/index.js"))
      (fun p => some p) "react-native" false
    = (Except.ok none, false, false) :=
  (multiPlatform_strictVersion_disabled ⟨true, some true, some false, true, true⟩
    "/proj/node_modules/react-native"
    (fun _ => Except.ok (Resolution.sourceFile "/other/react-native/index.js"))
    (fun p => some p) "react-native" false).2.2

/-- C10: every virtual module identifier this pipeline registers or returns
(the two polyfill ids, built-in Node external ids, custom external ids and
web shim ids) begins with the reserved NUL prefix. -/
theorem virtualIds_reserved_marker :
    strStartsWith virtualEnvVarId "\x00" = true
    ∧ strStartsWith virtualExternalRequireId "\x00" = true
    ∧ (∀ moduleId, strStartsWith (nodeExternalVirtualId moduleId) "\x00" = true)
    ∧ (∀ moduleName, strStartsWith (customExternalVirtualId moduleName) "\x00" = true)
    ∧ (∀ normalName, strStartsWith (shimVirtualId normalName) "\x00" = true) := by
  refine ⟨by decide, by decide, ?_, ?_, ?_⟩
  · intro m
    cases m with
    | mk l => rfl
  · intro m
    cases m with
    | mk l => rfl
  · intro m
    cases m with
    | mk l => rfl

/-- Helper: a lookup restricted by a filter that its predicate implies is
the unrestricted lookup. -/
theorem find_filter_of_imp (l : List (String × String)) (q t : String × String → Bool)
    (h : ∀ p, q p = true → t p = true) : (l.filter t).find? q = l.find? q := by
  induction l with
  | nil => rfl
  | cons a as ih =>
    by_cases hq : q a = true
    · rw [List.filter_cons, if_pos (h a hq), List.find?_cons_of_pos _ hq,
        List.find?_cons_of_pos _ hq]
    · have hq2 : q a = false := Bool.eq_false_iff.mpr hq
      by_cases ht : t a = true
      · rw [List.filter_cons, if_pos ht, List.find?_cons_of_neg _ (by simp [hq2]),
          List.find?_cons_of_neg _ (by simp [hq2]), ih]
      · rw [List.filter_cons, if_neg (by simp [Bool.eq_false_iff.mpr ht]),
          List.find?_cons_of_neg _ (by simp [hq2]), ih]

/-- Helper: a freshly set virtual module is looked up as its contents. -/
theorem getVirtualModule_set_self (reg : Registry) (i c : String) :
    getVirtualModule (setVirtualModule reg i c) i = some c := by
  unfold getVirtualModule setVirtualModule
  rw [List.find?_cons_of_pos _ (by simp)]
  rfl

/-- Helper: setting one virtual module leaves every other lookup intact. -/
theorem getVirtualModule_set_other (reg : Registry) (i c j : String)
    (h : (j == i) = false) :
    getVirtualModule (setVirtualModule reg i c) j = getVirtualModule reg j := by
  have hji : ¬j = i := by simpa using h
  unfold getVirtualModule setVirtualModule
  rw [List.find?_cons_of_neg _ (by simp; exact fun hij => hji hij.symm),
    find_filter_of_imp]
  intro p hp
  simp only [beq_iff_eq] at hp
  simp [hp, hji]

/-- Helper: a successful lookup implies a successful existence check. -/
theorem hasVirtualModule_of_get (reg : Registry) (j c : String)
    (h : getVirtualModule reg j = some c) : hasVirtualModule reg j = true := by
  unfold getVirtualModule at h
  unfold hasVirtualModule
  cases hf : reg.find? (fun p => p.1 == j) with
  | none => rw [hf] at h; simp at h
  | some p =>
    have hp := List.find?_some hf
    rw [List.any_eq_true]
    exact ⟨p, List.mem_of_find?_eq_some hf, hp⟩

/-- C9: getPolyfills registers the environment-variables and external-require
virtual modules; on web it returns exactly the two virtual ids plus the
error-guard polyfill path, on every other platform the original polyfill
list with the two virtual ids appended. -/
theorem getPolyfills_spec (originalGetPolyfills : Option String → List String)
    (errorGuardPolyfillPath : String) (platform : Option String) (reg : Registry) :
    hasVirtualModule
      (getPolyfills originalGetPolyfills errorGuardPolyfillPath platform reg).2
      virtualEnvVarId = true
    ∧ hasVirtualModule
        (getPolyfills originalGetPolyfills errorGuardPolyfillPath platform reg).2
        virtualExternalRequireId = true
    ∧ getVirtualModule
        (getPolyfills originalGetPolyfills errorGuardPolyfillPath platform reg).2
        virtualEnvVarId = some "//"
    ∧ getVirtualModule
        (getPolyfills originalGetPolyfills errorGuardPolyfillPath platform reg).2
        virtualExternalRequireId = some (externalRequirePolyfillSource platform)
    ∧ (platform = some "web" →
        (getPolyfills originalGetPolyfills errorGuardPolyfillPath platform reg).1
          = [virtualExternalRequireId, virtualEnvVarId, errorGuardPolyfillPath])
    ∧ (platform ≠ some "web" →
        (getPolyfills originalGetPolyfills errorGuardPolyfillPath platform reg).1
          = originalGetPolyfills platform ++ [virtualExternalRequireId, virtualEnvVarId]) := by
  have hreg : (getPolyfills originalGetPolyfills errorGuardPolyfillPath platform reg).2
      = setVirtualModule (setVirtualModule reg virtualEnvVarId "//")
          virtualExternalRequireId (externalRequirePolyfillSource platform) := by
    unfold getPolyfills
    split
    · rfl
    · rfl
  have gExt : getVirtualModule
      (getPolyfills originalGetPolyfills errorGuardPolyfillPath platform reg).2
      virtualExternalRequireId = some (externalRequirePolyfillSource platform) := by
    rw [hreg]
    exact getVirtualModule_set_self _ _ _
  have gEnv : getVirtualModule
      (getPolyfills originalGetPolyfills errorGuardPolyfillPath platform reg).2
      virtualEnvVarId = some "//" := by
    rw [hreg, getVirtualModule_set_other _ _ _ _ (by decide)]
    exact getVirtualModule_set_self _ _ _
  refine ⟨hasVirtualModule_of_get _ _ _ gEnv, hasVirtualModule_of_get _ _ _ gExt,
    gEnv, gExt, ?_, ?_⟩
  · intro hw
    subst hw
    have hww : ((some "web" : Option String) == some "web") = true := by decide
    simp [getPolyfills, hww]
  · intro hw
    have hw2 : (platform == some "web") = false := beq_eq_false_iff_ne.mpr hw
    simp [getPolyfills, hw2]

/-- C5: when the alias stage fires, its result is the strict resolution of
the replacement specifier: the exact web alias maps react-native to
react-native-web, the universal backreference alias maps
react-native-vector-icons/Feather to @expo/vector-icons/Feather, and a
failing replacement resolution fails the whole request instead of falling
through. -/
theorem aliasStage_spec (vectorIconsInstalled : Bool) (doResolve : StrictResolver)
    (platform : Option String) :
    (aliasStage vectorIconsInstalled doResolve "react-native" (some "web")
      = (doResolve "react-native-web").map some)
    ∧ (vectorIconsInstalled = true →
        aliasStage vectorIconsInstalled doResolve "react-native-vector-icons/Feather" platform
          = (doResolve "@expo/vector-icons/Feather").map some)
    ∧ (∀ moduleName redirected, aliasLookup platform moduleName = some redirected →
        aliasStage vectorIconsInstalled doResolve moduleName platform
          = (doResolve redirected).map some)
    ∧ (∀ moduleName aliased, vectorIconsInstalled = true →
        aliasLookup platform moduleName = none →
        applyVectorIconsAlias moduleName = some aliased →
        aliasStage vectorIconsInstalled doResolve moduleName platform
          = (doResolve aliased).map some)
    ∧ (∀ moduleName redirected e, aliasLookup platform moduleName = some redirected →
        doResolve redirected = Except.error e →
        aliasStage vectorIconsInstalled doResolve moduleName platform = Except.error e) := by
  have hlook : aliasLookup (some "web") "react-native" = some "react-native-web" := by decide
  have hvec : applyVectorIconsAlias "react-native-vector-icons/Feather"
      = some "@expo/vector-icons/Feather" := by decide
  have hlooknone : aliasLookup platform "react-native-vector-icons/Feather" = none := by
    unfold aliasLookup
    by_cases hp : (platform == some "web") = true
    · rw [if_pos hp]
      decide
    · rw [if_neg (by simp [hp])]
  refine ⟨?_, ?_, ?_, ?_, ?_⟩
  · simp [aliasStage, hlook]
  · intro hvi
    subst hvi
    simp [aliasStage, hlooknone, runUniversalAliases, getUniversalAliases, hvec]
  · intro moduleName redirected hred
    simp [aliasStage, hred]
  · intro moduleName aliased hvi hnone halias
    subst hvi
    simp [aliasStage, hnone, runUniversalAliases, getUniversalAliases, halias]
  · intro moduleName redirected e hred herr
    simp [aliasStage, hred, herr, Except.map]

/-- Closed check of aliasStage_spec: with the vector-icons package installed
and a concrete table-backed resolver, both claimed alias identities hold. -/
theorem aliasStage_spec_witness :
    aliasStage true
      (fun m => if m == "react-native-web"
        then Except.ok (Resolution.sourceFile "/nm/react-native-web/index.js")
        else if m == "@expo/vector-icons/Feather"
        then Except.ok (Resolution.sourceFile "/nm/@expo/vector-icons/Feather.js")
        else Except.error ⟨ResolverErrorKind.failedToResolveName⟩)
      "react-native" (some "web")
      = Except.ok (some (Resolution.sourceFile "/nm/react-native-web/index.js"))
    ∧ aliasStage true
        (fun m => if m == "react-native-web"
          then Except.ok (Resolution.sourceFile "/nm/react-native-web/index.js")
          else if m == "@expo/vector-icons/Feather"
          then Except.ok (Resolution.sourceFile "/nm/@expo/vector-icons/Feather.js")
          else Except.error ⟨ResolverErrorKind.failedToResolveName⟩)
        "react-native-vector-icons/Feather" (some "android")
      = Except.ok (some (Resolution.sourceFile "/nm/@expo/vector-icons/Feather.js")) := by
  constructor
  · rw [(aliasStage_spec true
      (fun m => if m == "react-native-web"
        then Except.ok (Resolution.sourceFile "/nm/react-native-web/index.js")
        else if m == "@expo/vector-icons/Feather"
        then Except.ok (Resolution.sourceFile "/nm/@expo/vector-icons/Feather.js")
        else Except.error ⟨ResolverErrorKind.failedToResolveName⟩)
      (some "android")).1]
    rfl
  · rw [(aliasStage_spec true
      (fun m => if m == "react-native-web"
        then Except.ok (Resolution.sourceFile "/nm/react-native-web/index.js")
        else if m == "@expo/vector-icons/Feather"
        then Except.ok (Resolution.sourceFile "/nm/@expo/vector-icons/Feather.js")
        else Except.error ⟨ResolverErrorKind.failedToResolveName⟩)
      (some "android")).2.1 rfl]
    rfl

/-- C1: for a specifier recognized as a Node.js built-in, the externals
stage in a server-like environment (node or react-server) returns the
sourceFile result at the NUL-prefixed node: virtual id and registers exactly
the deferred-require source; in a non-server environment it first tries the
optional resolver and returns its result when non-null, and on optional
failure returns Empty on web and declines on every other platform. -/
theorem nodeExternalsResolver_spec (isNodeExternal : String → Option String)
    (doResolve : StrictResolver) (context : ResolutionContext)
    (moduleName : String) (platform : Option String) (reg : Registry)
    (moduleId : String) (hExt : isNodeExternal moduleName = some moduleId) :
    ((context.customResolverOptions.environment == some "node"
        || context.customResolverOptions.environment == some "react-server") = true →
      nodeExternalsResolver isNodeExternal doResolve context moduleName platform reg
          = Except.ok (some (Resolution.sourceFile (nodeExternalVirtualId moduleId)),
              setVirtualModule reg (nodeExternalVirtualId moduleId)
                ("module.exports=$$require_external(\x27node:" ++ moduleId ++ "\x27);"))
        ∧ getVirtualModule
            (setVirtualModule reg (nodeExternalVirtualId moduleId)
              ("module.exports=$$require_external(\x27node:" ++ moduleId ++ "\x27);"))
            (nodeExternalVirtualId moduleId)
          = some ("module.exports=$$require_external(\x27node:" ++ moduleId ++ "\x27);"))
    ∧ ((context.customResolverOptions.environment == some "node"
        || context.customResolverOptions.environment == some "react-server") = false →
      (∀ r, optionalResolve doResolve moduleName = Except.ok (some r) →
        nodeExternalsResolver isNodeExternal doResolve context moduleName platform reg
          = Except.ok (some r, reg))
      ∧ (optionalResolve doResolve moduleName = Except.ok none → platform = some "web" →
        nodeExternalsResolver isNodeExternal doResolve context moduleName platform reg
          = Except.ok (some Resolution.empty, reg))
      ∧ (optionalResolve doResolve moduleName = Except.ok none → platform ≠ some "web" →
        nodeExternalsResolver isNodeExternal doResolve context moduleName platform reg
          = Except.ok (none, reg))) := by
  constructor
  · intro hServer
    refine ⟨?_, getVirtualModule_set_self _ _ _⟩
    simp [nodeExternalsResolver, hExt, hServer]
  · intro hServer
    refine ⟨?_, ?_, ?_⟩
    · intro r hOpt
      simp [nodeExternalsResolver, hExt, hServer, hOpt]
    · intro hOpt hWeb
      subst hWeb
      simp [nodeExternalsResolver, hExt, hServer, hOpt]
    · intro hOpt hWeb
      have hWeb2 : (platform == some "web") = false := beq_eq_false_iff_ne.mpr hWeb
      simp [nodeExternalsResolver, hExt, hServer, hOpt, hWeb2]
      exact hWeb

/-- Closed check of nodeExternalsResolver_spec: the fs built-in in a node
environment virtualizes to the NUL-prefixed id with the exact generated
source, and in a browser environment with no local fs package the stage
returns Empty on web and declines on android. -/
theorem nodeExternalsResolver_spec_witness :
    nodeExternalsResolver (fun m => if m == "fs" then some "fs" else none)
      (fun _ => Except.error ⟨ResolverErrorKind.failedToResolveName⟩)
      ⟨⟨some "node", false⟩, "/app/index.js", true⟩ "fs" none []
      = Except.ok (some (Resolution.sourceFile (nodeExternalVirtualId "fs")),
          setVirtualModule [] (nodeExternalVirtualId "fs")
            ("module.exports=$$require_external(\x27node:" ++ "fs" ++ "\x27);"))
    ∧ nodeExternalsResolver (fun m => if m == "fs" then some "fs" else none)
        (fun _ => Except.error ⟨ResolverErrorKind.failedToResolveName⟩)
        ⟨⟨some "client", false⟩, "/app/index.js", true⟩ "fs" (some "web") []
      = Except.ok (some Resolution.empty, [])
    ∧ nodeExternalsResolver (fun m => if m == "fs" then some "fs" else none)
        (fun _ => Except.error ⟨ResolverErrorKind.failedToResolveName⟩)
        ⟨⟨some "client", false⟩, "/app/index.js", true⟩ "fs" (some "android") []
      = Except.ok (none, []) := by
  refine ⟨?_, ?_, ?_⟩
  · exact ((nodeExternalsResolver_spec (fun m => if m == "fs" then some "fs" else none)
      (fun _ => Except.error ⟨ResolverErrorKind.failedToResolveName⟩)
      ⟨⟨some "node", false⟩, "/app/index.js", true⟩ "fs" none [] "fs" (by decide)).1
      (by decide)).1
  · exact ((nodeExternalsResolver_spec (fun m => if m == "fs" then some "fs" else none)
      (fun _ => Except.error ⟨ResolverErrorKind.failedToResolveName⟩)
      ⟨⟨some "client", false⟩, "/app/index.js", true⟩ "fs" (some "web") [] "fs"
      (by decide)).2 (by decide)).2.1 rfl rfl
  · exact ((nodeExternalsResolver_spec (fun m => if m == "fs" then some "fs" else none)
      (fun _ => Except.error ⟨ResolverErrorKind.failedToResolveName⟩)
      ⟨⟨some "client", false⟩, "/app/index.js", true⟩ "fs" (some "android") [] "fs"
      (by decide)).2 (by decide)).2.2 rfl (by decide)

/-- Helper: closed-form evaluation of the custom externals stage. -/
theorem customExternalsResolver_eval (context : ResolutionContext)
    (moduleName : String) (platform : Option String) (reg : Registry) :
    customExternalsResolver context moduleName platform reg
      = if strEndsWith moduleName "/package.json" = true then (none, reg)
        else if externalsMatch context moduleName = true then
          (some (Resolution.sourceFile (customExternalVirtualId moduleName)),
           setVirtualModule reg (customExternalVirtualId moduleName)
             ("module.exports=$$require_external(\x27" ++ moduleName ++ "\x27)"))
        else (none, reg) := by
  simp only [customExternalsResolver, externals, runExternalRules]

/-- C3 counterexample: with the dev flag false (and exporting unset, in a
node environment) the declared-externals stage still produces its virtual
module for the react specifier, and the virtual identifier it uses lies in
the very same NUL node: namespace as built-in Node externalization, not a
distinct one. -/
theorem customExternals_claim_counterexample :
    (customExternalsResolver ⟨⟨some "node", false⟩, "/app/index.js", false⟩
        "react" none []).1
      = some (Resolution.sourceFile (customExternalVirtualId "react"))
    ∧ customExternalVirtualId "react" = nodeExternalVirtualId "react"
    ∧ strStartsWith (customExternalVirtualId "react") "\x00node:" = true := by
  refine ⟨by decide, by decide, by decide⟩

/-- C3 amended: the declared-package-externals stage produces its
deferred-require virtual module only when the exporting flag is unset and
the environment is server-like (the dev flag is not consulted); the virtual
identifier lies in the same NUL node: namespace as built-in Node
externalization; and a specifier ending in /package.json is never
externalized, regardless of any rule match. -/
theorem customExternalsResolver_amended (context : ResolutionContext)
    (moduleName : String) (platform : Option String) (reg : Registry) :
    (strEndsWith moduleName "/package.json" = true →
      customExternalsResolver context moduleName platform reg = (none, reg))
    ∧ (∀ r reg2,
        customExternalsResolver context moduleName platform reg = (some r, reg2) →
        context.customResolverOptions.exporting = false
        ∧ isServerEnvironment context.customResolverOptions.environment = true
        ∧ r = Resolution.sourceFile (customExternalVirtualId moduleName)
        ∧ reg2 = setVirtualModule reg (customExternalVirtualId moduleName)
            ("module.exports=$$require_external(\x27" ++ moduleName ++ "\x27)"))
    ∧ (strEndsWith moduleName "/package.json" = false →
        context.customResolverOptions.exporting = false →
        isServerEnvironment context.customResolverOptions.environment = true →
        customExternalsPattern moduleName = true →
        customExternalsResolver context moduleName platform reg
          = (some (Resolution.sourceFile (customExternalVirtualId moduleName)),
             setVirtualModule reg (customExternalVirtualId moduleName)
               ("module.exports=$$require_external(\x27" ++ moduleName ++ "\x27)"))) := by
  refine ⟨?_, ?_, ?_⟩
  · intro hpkg
    rw [customExternalsResolver_eval, if_pos hpkg]
  · intro r reg2 hfire
    rw [customExternalsResolver_eval] at hfire
    by_cases hpkg : strEndsWith moduleName "/package.json" = true
    · rw [if_pos hpkg] at hfire
      exact absurd (congrArg Prod.fst hfire) (by simp)
    · rw [if_neg hpkg] at hfire
      by_cases hmatch : externalsMatch context moduleName = true
      · have hexp : context.customResolverOptions.exporting = false := by
          cases h2 : context.customResolverOptions.exporting with
          | false => rfl
          | true =>
            unfold externalsMatch at hmatch
            rw [if_pos (by simp [h2])] at hmatch
            cases hmatch
        have hsrv : isServerEnvironment context.customResolverOptions.environment = true := by
          cases h2 : isServerEnvironment context.customResolverOptions.environment with
          | true => rfl
          | false =>
            unfold externalsMatch at hmatch
            rw [if_pos (by simp [h2])] at hmatch
            cases hmatch
        rw [if_pos hmatch] at hfire
        injection hfire with h1 h2
        injection h1 with h1
        exact ⟨hexp, hsrv, h1.symm, h2.symm⟩
      · rw [if_neg hmatch] at hfire
        exact absurd (congrArg Prod.fst hfire) (by simp)
  · intro hpkg hexp hsrv hpat
    have hmatch : externalsMatch context moduleName = true := by
      unfold externalsMatch
      rw [if_neg (by simp [hexp, hsrv]), hpat]
    rw [customExternalsResolver_eval, if_neg (by simp [hpkg]), if_pos hmatch]

/-- Closed check of customExternalsResolver_amended: the react specifier in
a non-exporting node environment is externalized to the NUL node: virtual
id, and the matching @radix-ui metadata specifier is left alone. -/
theorem customExternalsResolver_amended_witness :
    customExternalsResolver ⟨⟨some "node", false⟩, "/app/index.js", true⟩
        "react" none []
      = (some (Resolution.sourceFile (customExternalVirtualId "react")),
         setVirtualModule [] (customExternalVirtualId "react")
           ("module.exports=$$require_external(\x27" ++ "react" ++ "\x27)"))
    ∧ customExternalsResolver ⟨⟨some "node", false⟩, "/app/index.js", true⟩
        "@radix-ui/themes/package.json" none []
      = (none, []) := by
  constructor
  · exact (customExternalsResolver_amended ⟨⟨some "node", false⟩, "/app/index.js", true⟩
      "react" none []).2.2 (by decide) rfl rfl (by decide)
  · exact (customExternalsResolver_amended ⟨⟨some "node", false⟩, "/app/index.js", true⟩
      "@radix-ui/themes/package.json" none []).1 (by decide)

/-- Helper: the warned flag and emission of one strict-version call are
determined by the warned-independent redirect predicate. -/
theorem strictVersionStep_char (enabled : Bool) (reactNativePath : String)
    (doResolve : StrictResolver) (redirectModulePath : String → Option String)
    (moduleName : String) (warned : Bool) :
    (strictVersionStep enabled reactNativePath doResolve redirectModulePath
        moduleName warned).2.1
      = (warned
          || strictVersionRedirects enabled reactNativePath doResolve
              redirectModulePath moduleName)
    ∧ (strictVersionStep enabled reactNativePath doResolve redirectModulePath
        moduleName warned).2.2
      = (strictVersionRedirects enabled reactNativePath doResolve
          redirectModulePath moduleName && !warned) := by
  by_cases hg : (!enabled
      || !(moduleName == "react-native" || strStartsWith moduleName "react-native/")) = true
  · simp only [strictVersionStep, strictVersionRedirects, if_pos hg]
    simp
  · cases hr : doResolve moduleName with
    | error e =>
      simp only [strictVersionStep, strictVersionRedirects, if_neg hg, hr]
      simp
    | ok resolved =>
      cases resolved with
      | sourceFile fp =>
        by_cases hs : strStartsWith fp reactNativePath = true
        · simp only [strictVersionStep, strictVersionRedirects, if_neg hg, hr, if_pos hs]
          simp
        · cases hred : redirectModulePath
              (replaceFirst moduleName "react-native" reactNativePath) with
          | none =>
            simp only [strictVersionStep, strictVersionRedirects, if_neg hg, hr,
              if_neg hs, hred]
            simp
          | some redirectPath =>
            cases hr2 : doResolve redirectPath with
            | error e =>
              simp only [strictVersionStep, strictVersionRedirects, if_neg hg, hr,
                if_neg hs, hred, hr2]
              simp
            | ok rr =>
              simp only [strictVersionStep, strictVersionRedirects, if_neg hg, hr,
                if_neg hs, hred, hr2]
              simp
      | assetFiles fps =>
        simp only [strictVersionStep, strictVersionRedirects, if_neg hg, hr]
        simp
      | empty =>
        simp only [strictVersionStep, strictVersionRedirects, if_neg hg, hr]
        simp

/-- Helper: once the warned flag is set, a run emits no further warnings. -/
theorem strictVersionRun_warned (enabled : Bool) (reactNativePath : String)
    (doResolve : StrictResolver) (redirectModulePath : String → Option String)
    (reqs : List String) :
    strictVersionRun enabled reactNativePath doResolve redirectModulePath reqs true
      = (true, 0) := by
  induction reqs with
  | nil => rfl
  | cons m rest ih =>
    have hc := strictVersionStep_char enabled reactNativePath doResolve
      redirectModulePath m true
    simp [strictVersionRun, hc.1, hc.2, ih]

/-- C6: with the strict-version redirector enabled, a react-native specifier
strictly resolving to a sourceFile outside the canonical react-native root
is re-resolved at the redirected canonical path and that result returned; a
false redirectModulePath answer makes the stage return null rather than
fail; and a run of any number of requests among which at least one actually
redirects emits the multiple-versions warning exactly once. -/
theorem strictVersionResolver_spec (reactNativePath : String)
    (doResolve : StrictResolver) (redirectModulePath : String → Option String) :
    (∀ moduleName fp redirectPath redirectResolved warned,
      (moduleName == "react-native" || strStartsWith moduleName "react-native/") = true →
      doResolve moduleName = Except.ok (Resolution.sourceFile fp) →
      strStartsWith fp reactNativePath = false →
      redirectModulePath (replaceFirst moduleName "react-native" reactNativePath)
        = some redirectPath →
      doResolve redirectPath = Except.ok redirectResolved →
      strictVersionStep true reactNativePath doResolve redirectModulePath
          moduleName warned
        = (Except.ok (some redirectResolved), true, !warned))
    ∧ (∀ moduleName fp warned,
      (moduleName == "react-native" || strStartsWith moduleName "react-native/") = true →
      doResolve moduleName = Except.ok (Resolution.sourceFile fp) →
      strStartsWith fp reactNativePath = false →
      redirectModulePath (replaceFirst moduleName "react-native" reactNativePath) = none →
      strictVersionStep true reactNativePath doResolve redirectModulePath
          moduleName warned
        = (Except.ok none, warned, false))
    ∧ (∀ reqs : List String,
        reqs.any (strictVersionRedirects true reactNativePath doResolve
          redirectModulePath) = true →
        (strictVersionRun true reactNativePath doResolve redirectModulePath
          reqs false).2 = 1) := by
  refine ⟨?_, ?_, ?_⟩
  · intro moduleName fp redirectPath redirectResolved warned hg hr hs hred hr2
    simp [strictVersionStep, hg, hr, hs, hred, hr2]
  · intro moduleName fp warned hg hr hs hred
    simp [strictVersionStep, hg, hr, hs, hred]
  · intro reqs hany
    induction reqs with
    | nil => cases hany
    | cons m rest ih =>
      have hc := strictVersionStep_char true reactNativePath doResolve
        redirectModulePath m false
      by_cases hm : strictVersionRedirects true reactNativePath doResolve
          redirectModulePath m = true
      · simp [strictVersionRun, hc.1, hc.2, hm,
          strictVersionRun_warned true reactNativePath doResolve redirectModulePath rest]
      · have hm2 := Bool.eq_false_iff.mpr hm
        rw [List.any_cons, hm2, Bool.false_or] at hany
        simp [strictVersionRun, hc.1, hc.2, hm2, ih hany]

/-- Closed check of strictVersionResolver_spec: with two on-disk copies of
react-native, a resolution hitting the wrong copy is redirected to the
canonical root, a shimmed-empty redirect yields null, and a run of three
requests with two actual redirects warns exactly once. -/
theorem strictVersionResolver_spec_witness :
    strictVersionStep true "/proj/node_modules/react-native"
      (fun m => if m == "react-native"
        then Except.ok (Resolution.sourceFile "/other/react-native/index.js")
        else Except.ok (Resolution.sourceFile "/proj/node_modules/react-native/index.js"))
      (fun p => some p) "react-native" false
      = (Except.ok (some (Resolution.sourceFile "/proj/node_modules/react-native/index.js")),
         true, true)
    ∧ strictVersionStep true "/proj/node_modules/react-native"
        (fun m => if m == "react-native"
          then Except.ok (Resolution.sourceFile "/other/react-native/index.js")
          else Except.ok (Resolution.sourceFile "/proj/node_modules/react-native/index.js"))
        (fun _ => none) "react-native" false
      = (Except.ok none, false, false)
    ∧ (strictVersionRun true "/proj/node_modules/react-native"
        (fun m => if m == "react-native"
          then Except.ok (Resolution.sourceFile "/other/react-native/index.js")
          else Except.ok (Resolution.sourceFile "/proj/node_modules/react-native/index.js"))
        (fun p => some p) ["react-native", "left-pad", "react-native"] false).2 = 1 := by
  refine ⟨?_, ?_, ?_⟩
  · exact (strictVersionResolver_spec "/proj/node_modules/react-native"
      (fun m => if m == "react-native"
        then Except.ok (Resolution.sourceFile "/other/react-native/index.js")
        else Except.ok (Resolution.sourceFile "/proj/node_modules/react-native/index.js"))
      (fun p => some p)).1 "react-native" "/other/react-native/index.js"
      "/proj/node_modules/react-native" _ false (by decide) rfl (by decide) rfl rfl
  · exact (strictVersionResolver_spec "/proj/node_modules/react-native"
      (fun m => if m == "react-native"
        then Except.ok (Resolution.sourceFile "/other/react-native/index.js")
        else Except.ok (Resolution.sourceFile "/proj/node_modules/react-native/index.js"))
      (fun _ => none)).2.1 "react-native" "/other/react-native/index.js" false
      (by decide) rfl (by decide) rfl
  · exact (strictVersionResolver_spec "/proj/node_modules/react-native"
      (fun m => if m == "react-native"
        then Except.ok (Resolution.sourceFile "/other/react-native/index.js")
        else Except.ok (Resolution.sourceFile "/proj/node_modules/react-native/index.js"))
      (fun p => some p)).2.2 ["react-native", "left-pad", "react-native"] (by decide)

/-- C8: the post-resolution rewrite stage preserves the discriminant of the
underlying strict resolution (returning sourceFile in the web AssetRegistry
short-circuit): errors propagate, non-sourceFile results are returned
unchanged, and a sourceFile result stays a sourceFile with only its
filePath possibly replaced. -/
theorem postResolutionRewriter_spec
    (shouldCreateVirtualShim shouldCreateVirtualCanary : String → Option String)
    (readFile : String → String) (isReactCanaryEnabled : Bool)
    (assetRegistryPath : String) (doResolve : StrictResolver)
    (context : ResolutionContext) (moduleName : String) (platform : Option String)
    (reg : Registry) :
    ((platform == some "web" && matchesRNWebOrigin context.originModulePath
        && containsSubstr moduleName "/modules/AssetRegistry") = true →
      postResolutionRewriter shouldCreateVirtualShim shouldCreateVirtualCanary readFile
          isReactCanaryEnabled assetRegistryPath doResolve context moduleName platform reg
        = Except.ok (Resolution.sourceFile assetRegistryPath, reg))
    ∧ ((platform == some "web" && matchesRNWebOrigin context.originModulePath
        && containsSubstr moduleName "/modules/AssetRegistry") = false →
      (∀ e, doResolve moduleName = Except.error e →
        postResolutionRewriter shouldCreateVirtualShim shouldCreateVirtualCanary readFile
            isReactCanaryEnabled assetRegistryPath doResolve context moduleName platform reg
          = Except.error e)
      ∧ (∀ fps, doResolve moduleName = Except.ok (Resolution.assetFiles fps) →
        postResolutionRewriter shouldCreateVirtualShim shouldCreateVirtualCanary readFile
            isReactCanaryEnabled assetRegistryPath doResolve context moduleName platform reg
          = Except.ok (Resolution.assetFiles fps, reg))
      ∧ (doResolve moduleName = Except.ok Resolution.empty →
        postResolutionRewriter shouldCreateVirtualShim shouldCreateVirtualCanary readFile
            isReactCanaryEnabled assetRegistryPath doResolve context moduleName platform reg
          = Except.ok (Resolution.empty, reg))
      ∧ (∀ fp, doResolve moduleName = Except.ok (Resolution.sourceFile fp) →
        ∃ fp2 reg2,
          postResolutionRewriter shouldCreateVirtualShim shouldCreateVirtualCanary readFile
              isReactCanaryEnabled assetRegistryPath doResolve context moduleName platform reg
            = Except.ok (Resolution.sourceFile fp2, reg2))) := by
  constructor
  · intro hcond
    simp only [postResolutionRewriter, if_pos hcond]
  · intro hcond
    have hcondn : ¬(platform == some "web" && matchesRNWebOrigin context.originModulePath
        && containsSubstr moduleName "/modules/AssetRegistry") = true := by
      simp [hcond]
    refine ⟨?_, ?_, ?_, ?_⟩
    · intro e hr
      simp only [postResolutionRewriter, if_neg hcondn, hr]
    · intro fps hr
      simp only [postResolutionRewriter, if_neg hcondn, hr]
    · intro hr
      simp only [postResolutionRewriter, if_neg hcondn, hr]
    · intro fp hr
      by_cases hw : (platform == some "web") = true
      · by_cases hnm : containsSubstr fp "node_modules" = true
        · cases hshim : shouldCreateVirtualShim (dropThroughNodeModules (normalizeSlashes fp)) with
          | some shimFile =>
            refine ⟨shimVirtualId (dropThroughNodeModules (normalizeSlashes fp)),
              if hasVirtualModule reg (shimVirtualId (dropThroughNodeModules (normalizeSlashes fp)))
              then reg
              else setVirtualModule reg
                (shimVirtualId (dropThroughNodeModules (normalizeSlashes fp)))
                (readFile shimFile), ?_⟩
            simp only [postResolutionRewriter, if_neg hcondn, hr, if_pos hw, if_pos hnm, hshim]
          | none =>
            refine ⟨fp, reg, ?_⟩
            simp only [postResolutionRewriter, if_neg hcondn, hr, if_pos hw, if_pos hnm, hshim]
        · refine ⟨fp, reg, ?_⟩
          simp only [postResolutionRewriter, if_neg hcondn, hr, if_pos hw, if_neg hnm]
      · by_cases hc : (isReactCanaryEnabled && containsSubstr fp "node_modules") = true
        · cases hcan : shouldCreateVirtualCanary (dropThroughNodeModules (normalizeSlashes fp)) with
          | some canaryFile =>
            refine ⟨canaryFile, reg, ?_⟩
            simp only [postResolutionRewriter, if_neg hcondn, hr, if_neg hw, if_pos hc, hcan]
          | none =>
            refine ⟨fp, reg, ?_⟩
            simp only [postResolutionRewriter, if_neg hcondn, hr, if_neg hw, if_pos hc, hcan]
        · refine ⟨fp, reg, ?_⟩
          simp only [postResolutionRewriter, if_neg hcondn, hr, if_neg hw, if_neg hc]

/-- Closed check of postResolutionRewriter_spec: the web AssetRegistry
short-circuit returns the configured registry path, and a web shim rewrite
keeps the sourceFile discriminant while swapping the file path. -/
theorem postResolutionRewriter_spec_witness :
    postResolutionRewriter (fun _ => none) (fun _ => none) (fun _ => "")
      false "/real/assets/registry.js"
      (fun _ => Except.ok (Resolution.sourceFile "/nm/x.js"))
      ⟨⟨some "client", false⟩, "/p/node_modules/react-native-web/dist/index.js", true⟩
      "./modules/AssetRegistry" (some "web") []
      = Except.ok (Resolution.sourceFile "/real/assets/registry.js", [])
    ∧ ∃ fp2 reg2,
        postResolutionRewriter
          (fun n => if n == "pkg/file.js" then some "/shims/file.js" else none)
          (fun _ => none) (fun _ => "shimmed") false "/real/assets/registry.js"
          (fun _ => Except.ok (Resolution.sourceFile "/proj/node_modules/pkg/file.js"))
          ⟨⟨some "client", false⟩, "/p/app/index.js", true⟩
          "pkg" (some "web") []
        = Except.ok (Resolution.sourceFile fp2, reg2) := by
  constructor
  · exact (postResolutionRewriter_spec (fun _ => none) (fun _ => none) (fun _ => "")
      false "/real/assets/registry.js"
      (fun _ => Except.ok (Resolution.sourceFile "/nm/x.js"))
      ⟨⟨some "client", false⟩, "/p/node_modules/react-native-web/dist/index.js", true⟩
      "./modules/AssetRegistry" (some "web") []).1 (by decide)
  · exact (postResolutionRewriter_spec
      (fun n => if n == "pkg/file.js" then some "/shims/file.js" else none)
      (fun _ => none) (fun _ => "shimmed") false "/real/assets/registry.js"
      (fun _ => Except.ok (Resolution.sourceFile "/proj/node_modules/pkg/file.js"))
      ⟨⟨some "client", false⟩, "/p/app/index.js", true⟩
      "pkg" (some "web") []).2 (by decide) |>.2.2.2 "/proj/node_modules/pkg/file.js" rfl

/-- Closed check of getNodejsExtensions_spec: the non-mjs extensions of a
second concrete list are preserved in order. -/
theorem getNodejsExtensions_spec_witness :
    (getNodejsExtensions ["mjs", "ts"]).filter (fun ext => !strEndsWith ext "mjs")
      = (["mjs", "ts"] : List String).filter (fun ext => !strEndsWith ext "mjs") :=
  getNodejsExtensions_spec.2 ["mjs", "ts"]

/-- Closed check of getPolyfills_spec at concrete platforms: the web list is
exactly the two virtual ids plus the error-guard path, and the android list
is the original list with the two virtual ids appended. -/
theorem getPolyfills_spec_witness :
    (getPolyfills (fun _ => ["/poly/a.js"]) "/poly/error-guard.js" (some "web") []).1
      = [virtualExternalRequireId, virtualEnvVarId, "/poly/error-guard.js"]
    ∧ (getPolyfills (fun _ => ["/poly/a.js"]) "/poly/error-guard.js" (some "android") []).1
      = ["/poly/a.js"] ++ [virtualExternalRequireId, virtualEnvVarId] := by
  constructor
  · exact (getPolyfills_spec (fun _ => ["/poly/a.js"]) "/poly/error-guard.js"
      (some "web") []).2.2.2.2.1 rfl
  · exact (getPolyfills_spec (fun _ => ["/poly/a.js"]) "/poly/error-guard.js"
      (some "android") []).2.2.2.2.2 (by decide)

/-- Closed check of virtualIds_reserved_marker at concrete module names. -/
theorem virtualIds_reserved_marker_witness :
    strStartsWith (nodeExternalVirtualId "fs") "\x00" = true
    ∧ strStartsWith (customExternalVirtualId "react") "\x00" = true
    ∧ strStartsWith (shimVirtualId "pkg/file.js") "\x00" = true :=
  ⟨virtualIds_reserved_marker.2.2.1 "fs",
   virtualIds_reserved_marker.2.2.2.1 "react",
   virtualIds_reserved_marker.2.2.2.2 "pkg/file.js"⟩
